import Mathlib

/-!
Verification of the WQ-Brain repository (most mature version, src/brain/brain3.py)
against its natural-language specification.

Shallow embedding conventions:
* Python floats that hold times and wait intervals are modelled as rationals;
  the values reached by the program here are exact decimal arithmetic on
  values coming from Retry-After headers or the constants, so no rounding
  behaviour is lost.
* Decoded JSON values are modelled by the inductive `Json` below; a Python
  `dict` produced by `resp.json()` is a `List (String × Json)` association
  list (keys are unique in decoded JSON objects, so first-match lookup agrees
  with Python dict lookup).
* HTTP traffic is modelled by response values handed to the functions: the
  poll loop consumes a list of `PollResponse`s (one per GET issued) and the
  catalog fetcher consults a function from requested offset to `Page`.
* Library calls of the source are modelled at their observable behaviour:
  `float(raw)` / `email.utils.parsedate_to_datetime(raw)` on the Retry-After
  header are abstracted by the inductive `RetryAfter` recording which of the
  two parses succeeds (and with which value), exactly the case split the
  source performs; `time.sleep` is recorded as an `Ev.sleepEv` event and
  raises (ValueError) on a negative argument, modelled by the
  `PollResult.sleepValueError` outcome.
-/

/-- A decoded JSON value (the result of Python json.load / resp.json()).
JSON null decodes to Python None, booleans to bool, numbers to int
(fractional numbers never occur in the inputs the claims quantify over),
strings to str, arrays to list, objects to dict. -/
inductive Json where
  | null
  | bool (b : Bool)
  | num (n : Int)
  | str (s : String)
  | arr (elems : List Json)
  | obj (fields : List (String × Json))

/-- A single-quote character, written via its code point. -/
def pyQuote : String := String.mk [Char.ofNat 39]

mutual

/-- Python repr() of a decoded JSON value (used by str() on non-string values). -/
def pyRepr : Json → String
  | Json.null => "None"
  | Json.bool true => "True"
  | Json.bool false => "False"
  | Json.num n => toString n
  | Json.str s => pyQuote ++ s ++ pyQuote
  | Json.arr xs => "[" ++ pyReprList xs ++ "]"
  | Json.obj kvs => "\x7b" ++ pyReprFields kvs ++ "\x7d"

/-- Comma-separated reprs of list elements. -/
def pyReprList : List Json → String
  | [] => ""
  | [x] => pyRepr x
  | x :: xs => pyRepr x ++ ", " ++ pyReprList xs

/-- Comma-separated reprs of dict items. -/
def pyReprFields : List (String × Json) → String
  | [] => ""
  | [kv] => pyQuote ++ kv.1 ++ pyQuote ++ ": " ++ pyRepr kv.2
  | kv :: kvs => pyQuote ++ kv.1 ++ pyQuote ++ ": " ++ pyRepr kv.2 ++ ", " ++ pyReprFields kvs

end

/-- Python str() of a decoded JSON value. -/
def pyStr : Json → String
  | Json.str s => s
  | j => pyRepr j

/-- Python truthiness of a decoded JSON value. -/
def truthy : Json → Bool
  | Json.null => false
  | Json.bool b => b
  | Json.num n => n != 0
  | Json.str s => s != ""
  | Json.arr xs => !xs.isEmpty
  | Json.obj kvs => !kvs.isEmpty

/-- Python `a or b` on decoded JSON values: the left operand if truthy, else the right. -/
def pyOrJ (a b : Json) : Json := if truthy a then a else b

/-- Python `d.get(k)` (default None) on a decoded JSON object; a JSON null
value also decodes to Python None, hence maps to `Json.null` as well. -/
def pyGetD (body : List (String × Json)) (k : String) : Json :=
  (body.lookup k).getD Json.null

/-- Python `k in d` on a decoded JSON object (key presence, value may be null). -/
def hasKey (body : List (String × Json)) (k : String) : Bool :=
  (body.lookup k).isSome

/-- Python `int(x)` on a decoded JSON value: none when it raises
(TypeError / ValueError). int of a bool is 0 or 1; int of a decimal string
parses it; anything else raises. -/
def pyIntJ : Json → Option Int
  | Json.num n => some n
  | Json.str s => s.toInt?
  | Json.bool b => some (if b then 1 else 0)
  | _ => none

/-- Python `int(q)` on a float value: truncation toward zero. -/
def pyTrunc (q : ℚ) : Int := if q < 0 then -(Int.floor (-q)) else Int.floor q

/-! ## Configuration constants of brain3.py -/

/-- seconds between polls when Retry-After missing (brain3.py line 36). -/
def DEFAULT_RETRY_SECONDS : ℚ := 2

/-- max total polling time per simulation (brain3.py line 37). -/
def MAX_WAIT_SECONDS : ℚ := 30 * 60

/-- max pages when the search count is unknown (brain3.py line 39). -/
def MAX_SEARCH_PAGES : Nat := 20

/-- default page size for data-fields (brain3.py line 40). -/
def PAGE_LIMIT : Nat := 50

/-! ## Retry-After handling (`_parse_retry_after`) -/

/-- The observable parse behaviour of a Retry-After header value:
absent; a value `float(raw)` accepts (with that numeric value); a value
`float` rejects but `email.utils.parsedate_to_datetime` accepts, recorded
with the resulting timestamp `dt.timestamp()`; or a value both reject. -/
inductive RetryAfter where
  | absent
  | seconds (q : ℚ)
  | httpDate (ts : ℚ)
  | unparseable

/-- Embedding of `_parse_retry_after` (brain3.py lines 220-232): a float
value is returned as is; an HTTP-date value becomes the seconds remaining
until its timestamp, floored at zero; otherwise None. `now` is the value
of `time.time()` at the call. -/
def parse_retry_after (h : RetryAfter) (now : ℚ) : Option ℚ :=
  match h with
  | RetryAfter.absent => none
  | RetryAfter.seconds q => some q
  | RetryAfter.httpDate ts => some (max 0 (ts - now))
  | RetryAfter.unparseable => none

/-- Python `x or d` for an optional float `x`: `d` when `x` is None or 0.0
(0.0 is falsy in Python), otherwise the value of `x`. -/
def pyOrFloat (x : Option ℚ) (d : ℚ) : ℚ :=
  match x with
  | none => d
  | some q => if q = 0 then d else q

/-- The wait interval actually used by the poll loop (brain3.py line 285):
`_parse_retry_after(r.headers) or DEFAULT_RETRY_SECONDS`. -/
def computeRetry (h : RetryAfter) (now : ℚ) : ℚ :=
  pyOrFloat (parse_retry_after h now) DEFAULT_RETRY_SECONDS

/-! ## Completion detection (`_is_done`) -/

/-- ASCII uppercasing of one character (the effect of Python str.upper()
on the status strings that occur here; all are ASCII). -/
def upChar (c : Char) : Char :=
  if 97 ≤ c.toNat ∧ c.toNat ≤ 122 then Char.ofNat (c.toNat - 32) else c

/-- Python str.upper() on ASCII strings. -/
def pyUpper (s : String) : String := String.mk (s.data.map upChar)

/-- Embedding of `_is_done` (brain3.py lines 235-242). -/
def is_done (status_code : Nat) (body : List (String × Json)) : Bool :=
  let status :=
    pyUpper (pyStr (pyOrJ (pyGetD body "status") (pyOrJ (pyGetD body "state") (Json.str ""))))
  if status = "DONE" || status = "COMPLETED" || status = "FINISHED" then true
  else if status_code == 200 && (hasKey body "alpha" || hasKey body "result") then true
  else false

/-! ## The poll loop of `run_simulation` -/

/-- One HTTP response received by a poll GET: its status code, its
Retry-After header, its body as decoded JSON (`none` when `r.json()`
raises, i.e. the body is not parseable as a JSON object), and its raw
text `r.text` (used in error messages). -/
structure PollResponse where
  statusCode : Nat
  retryAfter : RetryAfter
  jsonBody : Option (List (String × Json))
  text : String

/-- Observable side effects of the poll loop: issuing one poll GET, and
sleeping for a duration. -/
inductive Ev where
  | pollEv
  | sleepEv (d : ℚ)

/-- The status codes tolerated as back-pressure by the poll loop
(brain3.py line 270): `r.status_code not in (409, 425, 429)`. -/
def isBackpressure (c : Nat) : Bool := c == 409 || c == 425 || c == 429

/-- Outcome of the poll loop. Every constructor carries the event list
(polls issued and sleeps performed, in order). `exhausted` means the
supplied response script ran out while the loop would have kept polling. -/
inductive PollResult where
  | done (body : List (String × Json)) (evs : List Ev)
  | pollError (statusCode : Nat) (text : String) (evs : List Ev)
  | timedOut (elapsedSeconds : Int) (lastStatus : Nat) (lastText : String) (evs : List Ev)
  | sleepValueError (d : ℚ) (evs : List Ev)
  | exhausted (evs : List Ev)

/-- Embedding of the `while True` poll loop of `run_simulation`
(brain3.py lines 267-291), one list element per GET issued. `mw` is the
global ceiling (`MAX_WAIT_SECONDS` in the source, kept as a parameter so
the spec examples with a 2-second ceiling are statable), `now` the current
time, `waited` the accumulated wait, `evs` the events so far. Each
iteration: issue the GET; a status of 400 and above outside the three
back-pressure codes raises the poll error; the body parses to a dict or
falls back to an empty one; a body/status signalling completion returns
it; otherwise sleep the computed Retry-After interval (`time.sleep`
raises ValueError on a negative argument), add it to `waited`, and raise
the timeout error once `waited` exceeds the ceiling. -/
def pollLoop (mw : ℚ) (now waited : ℚ) (evs : List Ev) (rs : List PollResponse) : PollResult :=
  match rs with
  | [] => PollResult.exhausted evs
  | r :: rest =>
    let evs1 := evs ++ [Ev.pollEv]
    if 400 ≤ r.statusCode ∧ isBackpressure r.statusCode = false then
      PollResult.pollError r.statusCode r.text evs1
    else
      let body := r.jsonBody.getD []
      if is_done r.statusCode body then
        PollResult.done body evs1
      else
        let retry := computeRetry r.retryAfter now
        if retry < 0 then
          PollResult.sleepValueError retry evs1
        else
          let evs2 := evs1 ++ [Ev.sleepEv retry]
          let waited2 := waited + retry
          if mw < waited2 then
            PollResult.timedOut (pyTrunc waited2) r.statusCode r.text evs2
          else
            pollLoop mw (now + retry) waited2 evs2 rest

/-! ## `run_simulation` -/

/-- The response to the submission POST: status code, the Location header
(`none` when the header is absent), and the raw text. -/
structure SubmitResponse where
  statusCode : Nat
  location : Option String
  text : String

/-- Outcome of `run_simulation`: submit failure, missing Location header,
or the poll phase entered on the progress URL with its result. -/
inductive RunResult where
  | submitError (statusCode : Nat) (text : String)
  | missingLocation (statusCode : Nat) (text : String)
  | polled (progressUrl : String) (res : PollResult)

/-- Embedding of `run_simulation` (brain3.py lines 245-291): a submission
status of 400 and above raises the submit error; a falsy Location header
(absent or empty string, `if not progress_url`) raises the missing-header
error; otherwise the poll loop runs against the progress URL with the
global `MAX_WAIT_SECONDS` ceiling, consuming `polls`. -/
def run_simulation (submit : SubmitResponse) (polls : List PollResponse) (now : ℚ) : RunResult :=
  if 400 ≤ submit.statusCode then
    RunResult.submitError submit.statusCode submit.text
  else
    let progress_url := submit.location.getD ""
    if progress_url = "" then
      RunResult.missingLocation submit.statusCode submit.text
    else
      RunResult.polled progress_url (pollLoop MAX_WAIT_SECONDS now 0 [] polls)

/-! ## Observers on outcomes -/

/-- The events (polls and sleeps) of a poll-loop outcome. -/
def pollEvents : PollResult → List Ev
  | PollResult.done _ evs => evs
  | PollResult.pollError _ _ evs => evs
  | PollResult.timedOut _ _ _ evs => evs
  | PollResult.sleepValueError _ evs => evs
  | PollResult.exhausted evs => evs

/-- The events of a whole `run_simulation` outcome (none unless polling started). -/
def runEvents : RunResult → List Ev
  | RunResult.polled _ res => pollEvents res
  | _ => []

/-- The sleep durations among a list of events, in order. -/
def sleepsOf (evs : List Ev) : List ℚ :=
  evs.filterMap (fun e => match e with | Ev.sleepEv d => some d | _ => none)

/-- The number of poll GETs among a list of events. -/
def pollsOf (evs : List Ev) : Nat :=
  evs.countP (fun e => match e with | Ev.pollEv => true | _ => false)

/-- The final JSON body returned by a run, when it completed normally. -/
def finalBody : RunResult → Option (List (String × Json))
  | RunResult.polled _ (PollResult.done b _) => some b
  | _ => none

/-- The alpha field of the returned body, when the run completed normally. -/
def alphaOf (r : RunResult) : Option Json :=
  (finalBody r).bind (fun b => b.lookup "alpha")

/-- Whether a run ended in the polling timeout error. -/
def isTimedOutRun : RunResult → Bool
  | RunResult.polled _ (PollResult.timedOut _ _ _ _) => true
  | _ => false

/-! ## `get_datafields` -/

/-- One response of the data-fields endpoint: status code, decoded JSON
body and raw text. (Bodies of successful catalog pages always parse in the
scenarios the claims quantify over; an unparseable body would raise out of
`get_datafields` at `r.json()`.) -/
structure Page where
  statusCode : Nat
  body : List (String × Json)
  text : String

/-- Outcome of `get_datafields`: missing scope keys (KeyError), first page
failed (RuntimeError), or the accumulated rows together with the offsets
requested in order and whether a later-page failure was logged as a
warning. -/
inductive FetchResult where
  | missingKeys (missing : List String)
  | fetchError (statusCode : Nat) (text : String)
  | ok (results : List Json) (requested : List Nat) (warned : Bool)

/-- The elements a JSON array contributes to `results`. The source calls
`list(...)` / `results.extend(...)` on the value, which iterates an array;
every scenario the claims quantify over has array-valued `results` (on a
non-array the source would raise TypeError or iterate keys/characters). -/
def jsonToList : Json → List Json
  | Json.arr xs => xs
  | _ => []

/-- Python `range(start, stop, step)` for naturals with positive step
(the source always passes `page_limit` as step; a zero step would raise
ValueError in Python and yields the empty range here). -/
def rangeStep (start stop step : Nat) : List Nat :=
  if step = 0 then []
  else (List.range ((stop - start + step - 1) / step)).map (fun i => start + step * i)

/-- The keys `get_datafields` requires in `search_scope` (brain3.py line 115). -/
def REQUIRED_SCOPE : List String := ["instrumentType", "region", "delay", "universe"]

/-- Embedding of the subsequent-pages loop of `get_datafields`
(brain3.py lines 153-162): for each offset issue the GET; a status of 400
and above logs a warning and breaks; an empty (or falsy) `results` value
breaks; otherwise the rows are appended and the loop continues. Returns
the accumulated rows, the offsets requested so far, and the warning flag. -/
def fetchPages (server : Nat → Page) (offsets : List Nat) (acc : List Json)
    (reqd : List Nat) : List Json × List Nat × Bool :=
  match offsets with
  | [] => (acc, reqd, false)
  | off :: rest =>
    let r := server off
    if 400 ≤ r.statusCode then (acc, reqd ++ [off], true)
    else
      let page := (r.body.lookup "results").getD (Json.arr [])
      if truthy page then fetchPages server rest (acc ++ jsonToList page) (reqd ++ [off])
      else (acc, reqd ++ [off], false)

/-- Embedding of `get_datafields` (brain3.py lines 104-166). `server` maps
a requested offset to the response (the other query parameters are fixed
for the whole call and absorbed into `server`); `scopeKeys` are the keys
present in `search_scope`; `search` tells whether a free-text search term
was passed. Missing scope keys raise KeyError; a first-page status of 400
and above raises RuntimeError; otherwise the first page's rows are taken,
the offsets of the remaining pages are computed from the first page's
`count` (unknown count, i.e. search mode or a missing/unusable count,
falls back to `MAX_SEARCH_PAGES - 1` further pages), and the
subsequent-pages loop runs. -/
def get_datafields (server : Nat → Page) (scopeKeys : List String) (search : Bool)
    (page_limit : Nat) : FetchResult :=
  let missing := REQUIRED_SCOPE.filter (fun k => !(scopeKeys.contains k))
  if !missing.isEmpty then FetchResult.missingKeys missing
  else
    let r0 := server 0
    if 400 ≤ r0.statusCode then FetchResult.fetchError r0.statusCode r0.text
    else
      let results0 := jsonToList ((r0.body.lookup "results").getD (Json.arr []))
      let countOpt : Option Json :=
        if search then none
        else match r0.body.lookup "count" with
          | some Json.null => none
          | some v => some v
          | none => none
      let offsets := match countOpt with
        | none => (List.range' 1 (MAX_SEARCH_PAGES - 1)).map (fun i => i * page_limit)
        | some c => rangeStep page_limit ((pyIntJ c).getD 0).toNat page_limit
      let out := fetchPages server offsets results0 [0]
      FetchResult.ok out.1 out.2.1 out.2.2

/-! ## `sign_in` -/

/-- Result of the credential-extraction phase of `sign_in`. -/
inductive CredResult where
  | ok (username password : String)
  | badFormat

/-- Embedding of the credential normalization of `sign_in` (brain3.py
lines 80-85): a two-element JSON array is read positionally through
`map(str, data)`; a JSON object containing both a username and a password
key reads those values through `str(...)`; anything else raises
ValueError. -/
def extract_credentials (data : Json) : CredResult :=
  match data with
  | Json.arr [u, p] => CredResult.ok (pyStr u) (pyStr p)
  | Json.obj kvs =>
    match kvs.lookup "username", kvs.lookup "password" with
    | some u, some p => CredResult.ok (pyStr u) (pyStr p)
    | _, _ => CredResult.badFormat
  | _ => CredResult.badFormat

/-- The accepted credential-file shapes as the spec words them: a
two-element ordered array, or an object carrying username and password
fields. -/
def acceptedShape : Json → Bool
  | Json.arr l => l.length == 2
  | Json.obj kvs => (kvs.lookup "username").isSome && (kvs.lookup "password").isSome
  | _ => false

/-- The response of the authentication POST. -/
structure AuthResponse where
  statusCode : Nat
  jsonBody : Option (List (String × Json))
  text : String

/-- Outcome of `sign_in`. -/
inductive SignInResult where
  | configError
  | authError (statusCode : Nat) (text : String)
  | ok (username password : String) (info : List (String × Json))

/-- Embedding of `sign_in` (brain3.py lines 69-100): the credential file's
decoded JSON is normalized first (a bad shape raises ValueError before any
network request, so the auth response argument is not consulted); then a
status of 400 and above on the auth POST raises RuntimeError; otherwise
the session is returned with the response's JSON body (empty when it does
not parse). -/
def sign_in (data : Json) (resp : AuthResponse) : SignInResult :=
  match extract_credentials data with
  | CredResult.badFormat => SignInResult.configError
  | CredResult.ok u p =>
    if 400 ≤ resp.statusCode then SignInResult.authError resp.statusCode resp.text
    else SignInResult.ok u p (resp.jsonBody.getD [])

/-! ## Spec-side definitions (used to state refinement claims) -/

/-- The Retry-After handling exactly as the claim words it: a value
parseable as a plain number is used as seconds; an HTTP-date value is
converted to seconds remaining floored at zero and that floored value is
used; the fixed default is used only when neither form parses. -/
def retrySpecClaim (h : RetryAfter) (now : ℚ) : ℚ :=
  match h with
  | RetryAfter.seconds q => q
  | RetryAfter.httpDate ts => max 0 (ts - now)
  | _ => DEFAULT_RETRY_SECONDS

/-- The Retry-After handling as amended: like `retrySpecClaim`, except
that a parsed (or floored) value of exactly zero also falls back to the
default interval, because the source combines the parse with a Python
`or` and 0.0 is falsy. -/
def retrySpecAmended (h : RetryAfter) (now : ℚ) : ℚ :=
  match h with
  | RetryAfter.seconds q => if q = 0 then DEFAULT_RETRY_SECONDS else q
  | RetryAfter.httpDate ts =>
    if max 0 (ts - now) = 0 then DEFAULT_RETRY_SECONDS else max 0 (ts - now)
  | _ => DEFAULT_RETRY_SECONDS

/-! ## Trace predicates (used to state the poll/sleep ordering claims) -/

/-- Alternation of an event trace: when the flag expects a poll, the next
event must be a poll; after it a sleep is expected; traces may stop at any
point. Holding with flag `true` means: the trace is poll, sleep, poll,
sleep, ... starting with a poll, so consecutive polls always have exactly
one sleep between them and no sleep precedes the first poll. -/
def altTrace : Bool → List Ev → Bool
  | _, [] => true
  | true, Ev.pollEv :: r => altTrace false r
  | false, Ev.sleepEv _ :: r => altTrace true r
  | _, _ => false

/-- Helper of `everyPollPrecededBySleep`: walks the trace remembering the
previous event; a poll whose predecessor is not a sleep refutes it. -/
def everyPollAfterSleep : Option Ev → List Ev → Bool
  | prev, Ev.pollEv :: r =>
    (match prev with | some (Ev.sleepEv _) => true | _ => false)
      && everyPollAfterSleep (some Ev.pollEv) r
  | _, e :: r => everyPollAfterSleep (some e) r
  | _, [] => true

/-- The literal reading of the claim that every poll request, including
the first one, is immediately preceded by a sleep. -/
def everyPollPrecededBySleep (tr : List Ev) : Bool := everyPollAfterSleep none tr

/-! ## Concrete fixtures -/

/-- A pending 200 response with Retry-After 1 and an empty JSON body. -/
def rPend : PollResponse := ⟨200, RetryAfter.seconds 1, some [], "pending"⟩

/-- A 429 back-pressure response with Retry-After 1 and an empty JSON body. -/
def r429 : PollResponse := ⟨429, RetryAfter.seconds 1, some [], "too many requests"⟩

/-- A 200 response whose body reports status DONE and alpha X. -/
def rDoneX : PollResponse :=
  ⟨200, RetryAfter.absent, some [("status", Json.str "DONE"), ("alpha", Json.str "X")], "done"⟩

/-- A 429 response whose JSON body nevertheless reports status DONE. -/
def r429done : PollResponse :=
  ⟨429, RetryAfter.seconds 1, some [("status", Json.str "DONE")], "busy"⟩

/-- A 429 back-pressure response whose body is not parseable as JSON. -/
def rNoJson : PollResponse := ⟨429, RetryAfter.seconds 1, none, "<html>busy</html>"⟩

/-- A terminal 500 poll response. -/
def rErr500 : PollResponse := ⟨500, RetryAfter.absent, some [], "internal error"⟩

/-- A successful submission response carrying a Location header. -/
def subOk : SubmitResponse := ⟨201, some "progress-url-1", "created"⟩

/-- A failed submission response (status 500). -/
def sub500 : SubmitResponse := ⟨500, none, "server error"⟩

/-- A successful submission response lacking the Location header. -/
def subNoLoc : SubmitResponse := ⟨200, none, "ok"⟩

/-- The poll script of the C1 scenario: K back-pressure responses with
Retry-After 1, then the DONE response with alpha X. -/
def c1Script (K : Nat) : List PollResponse := List.replicate K r429 ++ [rDoneX]

/-- The events of K poll-and-sleep iterations with 1-second sleeps. -/
def c1Evs : Nat → List Ev
  | 0 => []
  | K + 1 => Ev.pollEv :: Ev.sleepEv 1 :: c1Evs K

/-- A catalog server for the pagination scenario: first page reports
count 120 with one row, pages at offsets 50 and 100 each carry one row,
anything else fails. -/
def srv7 : Nat → Page := fun off =>
  if off = 0 then ⟨200, [("count", Json.num 120), ("results", Json.arr [Json.num 1])], "p0"⟩
  else if off = 50 then ⟨200, [("results", Json.arr [Json.num 2])], "p1"⟩
  else if off = 100 then ⟨200, [("results", Json.arr [Json.num 3])], "p2"⟩
  else ⟨500, [], "bad offset"⟩

/-- A catalog server whose first page fails with 503. -/
def srvFail : Nat → Page := fun _ => ⟨503, [], "unavailable"⟩

/-- A successful auth response with an empty JSON body. -/
def authOk : AuthResponse := ⟨200, some [], "welcome"⟩

/-! ## Step lemmas for the poll loop -/

theorem pollLoop_nil (mw now w : ℚ) (evs : List Ev) :
    pollLoop mw now w evs [] = PollResult.exhausted evs := rfl

theorem pollLoop_cons_pollError (mw now w : ℚ) (evs : List Ev) (r : PollResponse)
    (rest : List PollResponse) (herr : 400 ≤ r.statusCode)
    (hbp : isBackpressure r.statusCode = false) :
    pollLoop mw now w evs (r :: rest) =
      PollResult.pollError r.statusCode r.text (evs ++ [Ev.pollEv]) := by
  simp only [pollLoop]
  rw [if_pos ⟨herr, hbp⟩]

theorem pollLoop_cons_done (mw now w : ℚ) (evs : List Ev) (r : PollResponse)
    (rest : List PollResponse)
    (hterm : ¬(400 ≤ r.statusCode ∧ isBackpressure r.statusCode = false))
    (hdone : is_done r.statusCode (r.jsonBody.getD []) = true) :
    pollLoop mw now w evs (r :: rest) =
      PollResult.done (r.jsonBody.getD []) (evs ++ [Ev.pollEv]) := by
  simp only [pollLoop]
  rw [if_neg hterm, if_pos hdone]

theorem pollLoop_cons_sleepError (mw now w : ℚ) (evs : List Ev) (r : PollResponse)
    (rest : List PollResponse)
    (hterm : ¬(400 ≤ r.statusCode ∧ isBackpressure r.statusCode = false))
    (hdone : is_done r.statusCode (r.jsonBody.getD []) = false)
    (hneg : computeRetry r.retryAfter now < 0) :
    pollLoop mw now w evs (r :: rest) =
      PollResult.sleepValueError (computeRetry r.retryAfter now) (evs ++ [Ev.pollEv]) := by
  simp only [pollLoop]
  rw [if_neg hterm, if_neg (by simp [hdone]), if_pos hneg]

theorem pollLoop_cons_timeout (mw now w : ℚ) (evs : List Ev) (r : PollResponse)
    (rest : List PollResponse)
    (hterm : ¬(400 ≤ r.statusCode ∧ isBackpressure r.statusCode = false))
    (hdone : is_done r.statusCode (r.jsonBody.getD []) = false)
    (hpos : 0 ≤ computeRetry r.retryAfter now)
    (hceil : mw < w + computeRetry r.retryAfter now) :
    pollLoop mw now w evs (r :: rest) =
      PollResult.timedOut (pyTrunc (w + computeRetry r.retryAfter now)) r.statusCode r.text
        (evs ++ [Ev.pollEv] ++ [Ev.sleepEv (computeRetry r.retryAfter now)]) := by
  simp only [pollLoop]
  rw [if_neg hterm, if_neg (by simp [hdone]), if_neg (not_lt.mpr hpos), if_pos hceil]

theorem pollLoop_cons_continue (mw now w : ℚ) (evs : List Ev) (r : PollResponse)
    (rest : List PollResponse)
    (hterm : ¬(400 ≤ r.statusCode ∧ isBackpressure r.statusCode = false))
    (hdone : is_done r.statusCode (r.jsonBody.getD []) = false)
    (hpos : 0 ≤ computeRetry r.retryAfter now)
    (hceil : w + computeRetry r.retryAfter now ≤ mw) :
    pollLoop mw now w evs (r :: rest) =
      pollLoop mw (now + computeRetry r.retryAfter now) (w + computeRetry r.retryAfter now)
        (evs ++ [Ev.pollEv] ++ [Ev.sleepEv (computeRetry r.retryAfter now)]) rest := by
  simp only [pollLoop]
  rw [if_neg hterm, if_neg (by simp [hdone]), if_neg (not_lt.mpr hpos), if_neg (not_lt.mpr hceil)]

/-! ## Structure of the event trace -/

theorem pollEvents_acc (rs : List PollResponse) :
    ∀ (mw now w : ℚ) (evs : List Ev),
      pollEvents (pollLoop mw now w evs rs) = evs ++ pollEvents (pollLoop mw now w [] rs) := by
  induction rs with
  | nil =>
    intro mw now w evs
    simp [pollLoop_nil, pollEvents]
  | cons r rest ih =>
    intro mw now w evs
    by_cases hterm : 400 ≤ r.statusCode ∧ isBackpressure r.statusCode = false
    · rw [pollLoop_cons_pollError mw now w evs r rest hterm.1 hterm.2,
        pollLoop_cons_pollError mw now w [] r rest hterm.1 hterm.2]
      simp [pollEvents]
    · cases hdone : is_done r.statusCode (r.jsonBody.getD []) with
      | true =>
        rw [pollLoop_cons_done mw now w evs r rest hterm hdone,
          pollLoop_cons_done mw now w [] r rest hterm hdone]
        simp [pollEvents]
      | false =>
        rcases lt_or_le (computeRetry r.retryAfter now) 0 with hneg | hpos
        · rw [pollLoop_cons_sleepError mw now w evs r rest hterm hdone hneg,
            pollLoop_cons_sleepError mw now w [] r rest hterm hdone hneg]
          simp [pollEvents]
        · rcases lt_or_le mw (w + computeRetry r.retryAfter now) with hceil | hok
          · rw [pollLoop_cons_timeout mw now w evs r rest hterm hdone hpos hceil,
              pollLoop_cons_timeout mw now w [] r rest hterm hdone hpos hceil]
            simp [pollEvents]
          · rw [pollLoop_cons_continue mw now w evs r rest hterm hdone hpos hok,
              pollLoop_cons_continue mw now w [] r rest hterm hdone hpos hok]
            have hL := ih mw (now + computeRetry r.retryAfter now)
              (w + computeRetry r.retryAfter now)
              (evs ++ [Ev.pollEv] ++ [Ev.sleepEv (computeRetry r.retryAfter now)])
            have hR := ih mw (now + computeRetry r.retryAfter now)
              (w + computeRetry r.retryAfter now)
              (([] : List Ev) ++ [Ev.pollEv] ++ [Ev.sleepEv (computeRetry r.retryAfter now)])
            rw [hL, hR]
            simp

theorem altTrace_pollLoop (rs : List PollResponse) :
    ∀ (mw now w : ℚ), altTrace true (pollEvents (pollLoop mw now w [] rs)) = true := by
  induction rs with
  | nil =>
    intro mw now w
    simp [pollLoop_nil, pollEvents, altTrace]
  | cons r rest ih =>
    intro mw now w
    by_cases hterm : 400 ≤ r.statusCode ∧ isBackpressure r.statusCode = false
    · rw [pollLoop_cons_pollError mw now w [] r rest hterm.1 hterm.2]
      simp [pollEvents, altTrace]
    · cases hdone : is_done r.statusCode (r.jsonBody.getD []) with
      | true =>
        rw [pollLoop_cons_done mw now w [] r rest hterm hdone]
        simp [pollEvents, altTrace]
      | false =>
        rcases lt_or_le (computeRetry r.retryAfter now) 0 with hneg | hpos
        · rw [pollLoop_cons_sleepError mw now w [] r rest hterm hdone hneg]
          simp [pollEvents, altTrace]
        · rcases lt_or_le mw (w + computeRetry r.retryAfter now) with hceil | hok
          · rw [pollLoop_cons_timeout mw now w [] r rest hterm hdone hpos hceil]
            simp [pollEvents, altTrace]
          · rw [pollLoop_cons_continue mw now w [] r rest hterm hdone hpos hok]
            rw [pollEvents_acc rest mw (now + computeRetry r.retryAfter now)
              (w + computeRetry r.retryAfter now)
              (([] : List Ev) ++ [Ev.pollEv] ++ [Ev.sleepEv (computeRetry r.retryAfter now)])]
            simp only [List.nil_append, List.cons_append, altTrace]
            exact ih mw (now + computeRetry r.retryAfter now) (w + computeRetry r.retryAfter now)

theorem pollLoop_head_poll (r : PollResponse) (rest : List PollResponse) (mw now w : ℚ) :
    (pollEvents (pollLoop mw now w [] (r :: rest))).head? = some Ev.pollEv := by
  by_cases hterm : 400 ≤ r.statusCode ∧ isBackpressure r.statusCode = false
  · rw [pollLoop_cons_pollError mw now w [] r rest hterm.1 hterm.2]
    simp [pollEvents]
  · cases hdone : is_done r.statusCode (r.jsonBody.getD []) with
    | true =>
      rw [pollLoop_cons_done mw now w [] r rest hterm hdone]
      simp [pollEvents]
    | false =>
      rcases lt_or_le (computeRetry r.retryAfter now) 0 with hneg | hpos
      · rw [pollLoop_cons_sleepError mw now w [] r rest hterm hdone hneg]
        simp [pollEvents]
      · rcases lt_or_le mw (w + computeRetry r.retryAfter now) with hceil | hok
        · rw [pollLoop_cons_timeout mw now w [] r rest hterm hdone hpos hceil]
          simp [pollEvents]
        · rw [pollLoop_cons_continue mw now w [] r rest hterm hdone hpos hok]
          rw [pollEvents_acc rest mw (now + computeRetry r.retryAfter now)
            (w + computeRetry r.retryAfter now)
            (([] : List Ev) ++ [Ev.pollEv] ++ [Ev.sleepEv (computeRetry r.retryAfter now)])]
          simp

/-! ## Small observer lemmas -/

theorem sleepsOf_append (a b : List Ev) : sleepsOf (a ++ b) = sleepsOf a ++ sleepsOf b := by
  simp [sleepsOf]

theorem sleepsOf_poll : sleepsOf [Ev.pollEv] = [] := rfl

theorem sleepsOf_sleep (d : ℚ) : sleepsOf [Ev.sleepEv d] = [d] := rfl

theorem pollsOf_append (a b : List Ev) : pollsOf (a ++ b) = pollsOf a + pollsOf b := by
  simp [pollsOf, List.countP_append]

theorem sleepsOf_c1Evs (K : Nat) : sleepsOf (c1Evs K) = List.replicate K 1 := by
  induction K with
  | zero => rfl
  | succ K ih => simp [c1Evs, sleepsOf, List.replicate_succ] at ih ⊢; exact ih

theorem pollsOf_c1Evs (K : Nat) : pollsOf (c1Evs K) = K := by
  induction K with
  | zero => rfl
  | succ K ih => simp [c1Evs, pollsOf] at ih ⊢; exact ih

/-! ## The C1 scenario loop -/

theorem c1_loop (K : Nat) :
    ∀ (now w : ℚ) (evs : List Ev) (rest : List PollResponse),
      w + K ≤ MAX_WAIT_SECONDS →
      pollLoop MAX_WAIT_SECONDS now w evs (List.replicate K r429 ++ rest) =
        pollLoop MAX_WAIT_SECONDS (now + K) (w + K) (evs ++ c1Evs K) rest := by
  induction K with
  | zero =>
    intro now w evs rest h
    simp [c1Evs]
  | succ K ih =>
    intro now w evs rest h
    rw [List.replicate_succ, List.cons_append]
    have hr : computeRetry r429.retryAfter now = 1 := by
      norm_num [r429, computeRetry, parse_retry_after, pyOrFloat]
    have hterm : ¬(400 ≤ r429.statusCode ∧ isBackpressure r429.statusCode = false) := by decide
    have hdone : is_done r429.statusCode (r429.jsonBody.getD []) = false := by decide
    have hpos : 0 ≤ computeRetry r429.retryAfter now := by rw [hr]; norm_num
    have hok : w + computeRetry r429.retryAfter now ≤ MAX_WAIT_SECONDS := by
      rw [hr]
      have hK : (0:ℚ) ≤ (K:ℚ) := by positivity
      push_cast at h
      linarith
    rw [pollLoop_cons_continue MAX_WAIT_SECONDS now w evs r429 (List.replicate K r429 ++ rest)
      hterm hdone hpos hok]
    rw [hr]
    have hstep := ih (now + 1) (w + 1) (evs ++ [Ev.pollEv] ++ [Ev.sleepEv 1]) rest
      (by push_cast at h ⊢; linarith)
    rw [hstep]
    congr 1
    · push_cast; ring
    · push_cast; ring
    · simp [c1Evs]

/-! ## Elapsed-seconds accounting for the timeout error -/

theorem timedOut_elapsed (rs : List PollResponse) :
    ∀ (mw now w : ℚ) (evs : List Ev) (e : Int) (c : Nat) (t : String) (evs2 : List Ev),
      w = (sleepsOf evs).sum →
      pollLoop mw now w evs rs = PollResult.timedOut e c t evs2 →
      e = pyTrunc ((sleepsOf evs2).sum) := by
  induction rs with
  | nil =>
    intro mw now w evs e c t evs2 hw hres
    rw [pollLoop_nil] at hres
    exact absurd hres (by simp)
  | cons r rest ih =>
    intro mw now w evs e c t evs2 hw hres
    by_cases hterm : 400 ≤ r.statusCode ∧ isBackpressure r.statusCode = false
    · rw [pollLoop_cons_pollError mw now w evs r rest hterm.1 hterm.2] at hres
      exact absurd hres (by simp)
    · cases hdone : is_done r.statusCode (r.jsonBody.getD []) with
      | true =>
        rw [pollLoop_cons_done mw now w evs r rest hterm hdone] at hres
        exact absurd hres (by simp)
      | false =>
        rcases lt_or_le (computeRetry r.retryAfter now) 0 with hneg | hpos
        · rw [pollLoop_cons_sleepError mw now w evs r rest hterm hdone hneg] at hres
          exact absurd hres (by simp)
        · rcases lt_or_le mw (w + computeRetry r.retryAfter now) with hceil | hok
          · rw [pollLoop_cons_timeout mw now w evs r rest hterm hdone hpos hceil] at hres
            simp only [PollResult.timedOut.injEq] at hres
            obtain ⟨he, hc, ht, hevs⟩ := hres
            rw [← he, ← hevs]
            rw [sleepsOf_append, sleepsOf_append, sleepsOf_poll, sleepsOf_sleep]
            simp [hw]
          · rw [pollLoop_cons_continue mw now w evs r rest hterm hdone hpos hok] at hres
            refine ih mw (now + computeRetry r.retryAfter now)
              (w + computeRetry r.retryAfter now)
              (evs ++ [Ev.pollEv] ++ [Ev.sleepEv (computeRetry r.retryAfter now)])
              e c t evs2 ?_ hres
            rw [sleepsOf_append, sleepsOf_append, sleepsOf_poll, sleepsOf_sleep]
            simp [hw]

theorem is_done_empty (code : Nat) : is_done code [] = false := by
  simp only [is_done]
  rw [if_neg (by decide)]
  simp [hasKey]

theorem pollsOf_poll : pollsOf [Ev.pollEv] = 1 := rfl

/-! ## Claims -/

/-- C1 (amended): for a poll sequence of K 429 responses with Retry-After 1
followed by a 200 DONE body with alpha X, and K at most MAX_WAIT_SECONDS
(so the global timeout ceiling is not crossed), run_simulation performs one
1-second sleep per 429 response (K seconds in total), polls K+1 times, and
returns the final body, whose alpha field is X. -/
theorem C1_amended (K : Nat) (now : ℚ) (hK : K ≤ 1800) :
    finalBody (run_simulation subOk (c1Script K) now) =
      some [("status", Json.str "DONE"), ("alpha", Json.str "X")] ∧
    alphaOf (run_simulation subOk (c1Script K) now) = some (Json.str "X") ∧
    sleepsOf (runEvents (run_simulation subOk (c1Script K) now)) = List.replicate K 1 ∧
    (sleepsOf (runEvents (run_simulation subOk (c1Script K) now))).sum = (K : ℚ) ∧
    pollsOf (runEvents (run_simulation subOk (c1Script K) now)) = K + 1 := by
  have hsub : run_simulation subOk (c1Script K) now =
      RunResult.polled "progress-url-1" (pollLoop MAX_WAIT_SECONDS now 0 [] (c1Script K)) := by
    simp only [run_simulation]
    rw [if_neg (by decide), if_neg (by decide)]
    rfl
  have hrun : run_simulation subOk (c1Script K) now =
      RunResult.polled "progress-url-1"
        (PollResult.done [("status", Json.str "DONE"), ("alpha", Json.str "X")]
          (([] ++ c1Evs K) ++ [Ev.pollEv])) := by
    rw [hsub]
    unfold c1Script
    rw [c1_loop K now 0 [] [rDoneX] (by norm_num [MAX_WAIT_SECONDS]; exact_mod_cast hK)]
    rw [pollLoop_cons_done MAX_WAIT_SECONDS (now + K) (0 + K) ([] ++ c1Evs K) rDoneX []
      (by decide) (by decide)]
    rfl
  rw [hrun]
  refine ⟨rfl, rfl, ?_, ?_, ?_⟩
  · simp [runEvents, pollEvents, sleepsOf_append, sleepsOf_poll, sleepsOf_c1Evs]
  · simp [runEvents, pollEvents, sleepsOf_append, sleepsOf_poll, sleepsOf_c1Evs,
      List.sum_replicate]
  · simp [runEvents, pollEvents, pollsOf_append, pollsOf_c1Evs, pollsOf_poll]

/-- C1 witness: the amended claim at K = 3. -/
theorem C1_witness :
    finalBody (run_simulation subOk (c1Script 3) 0) =
      some [("status", Json.str "DONE"), ("alpha", Json.str "X")] ∧
    alphaOf (run_simulation subOk (c1Script 3) 0) = some (Json.str "X") ∧
    (sleepsOf (runEvents (run_simulation subOk (c1Script 3) 0))).sum = 3 ∧
    pollsOf (runEvents (run_simulation subOk (c1Script 3) 0)) = 4 := by
  have h := C1_amended 3 0 (by norm_num)
  exact ⟨h.1, h.2.1, by simpa using h.2.2.2.1, by simpa using h.2.2.2.2⟩

/-- C1 counterexample: at K = 1801 the same poll sequence does not return
the DONE body with alpha X; the run ends in the polling timeout error,
because the accumulated sleep (1801 seconds) exceeds MAX_WAIT_SECONDS. -/
theorem C1_counterexample :
    isTimedOutRun (run_simulation subOk (c1Script 1801) 0) = true ∧
    finalBody (run_simulation subOk (c1Script 1801) 0) = none ∧
    alphaOf (run_simulation subOk (c1Script 1801) 0) = none := by
  have hsub : run_simulation subOk (c1Script 1801) 0 =
      RunResult.polled "progress-url-1"
        (pollLoop MAX_WAIT_SECONDS 0 0 [] (c1Script 1801)) := by
    simp only [run_simulation]
    rw [if_neg (by decide), if_neg (by decide)]
    rfl
  have hsplit : c1Script 1801 = List.replicate 1800 r429 ++ (r429 :: [rDoneX]) := by
    unfold c1Script
    rw [(by norm_num : (1801 : Nat) = 1800 + 1), List.replicate_add, List.append_assoc]
    rfl
  have hr : computeRetry r429.retryAfter (0 + (1800 : Nat)) = 1 := by
    norm_num [r429, computeRetry, parse_retry_after, pyOrFloat]
  have hrun : run_simulation subOk (c1Script 1801) 0 =
      RunResult.polled "progress-url-1"
        (PollResult.timedOut (pyTrunc (0 + (1800 : Nat) + 1)) r429.statusCode r429.text
          (([] ++ c1Evs 1800) ++ [Ev.pollEv] ++ [Ev.sleepEv 1])) := by
    rw [hsub, hsplit]
    rw [c1_loop 1800 0 0 [] (r429 :: [rDoneX]) (by norm_num [MAX_WAIT_SECONDS])]
    rw [pollLoop_cons_timeout MAX_WAIT_SECONDS (0 + (1800 : Nat)) (0 + (1800 : Nat))
      ([] ++ c1Evs 1800) r429 [rDoneX] (by decide) (by decide) (by rw [hr]; norm_num)
      (by rw [hr]; push_cast; norm_num [MAX_WAIT_SECONDS])]
    rw [hr]
  rw [hrun]
  exact ⟨rfl, rfl, rfl⟩

/-- C2: the poll loop never polls past the global ceiling. First conjunct:
at the poll at which the accumulated sleep first exceeds the ceiling, the
loop raises the timeout error carrying the truncated accumulated seconds
and that last response's status code and text, for every continuation
`rest` of the script - the result does not depend on `rest`, so no further
poll request is issued. Second conjunct: the elapsed seconds carried by
any timeout error equal the truncated sum of all sleeps performed. Third
conjunct: the spec's concrete example - ceiling 2 seconds, fixed 1-second
interval, server never completing - terminates with the timeout error
after 3 polls. -/
theorem C2_thm :
    (∀ (mw now w : ℚ) (evs : List Ev) (r : PollResponse) (rest : List PollResponse),
      ¬(400 ≤ r.statusCode ∧ isBackpressure r.statusCode = false) →
      is_done r.statusCode (r.jsonBody.getD []) = false →
      0 ≤ computeRetry r.retryAfter now →
      mw < w + computeRetry r.retryAfter now →
      pollLoop mw now w evs (r :: rest) =
        PollResult.timedOut (pyTrunc (w + computeRetry r.retryAfter now)) r.statusCode r.text
          (evs ++ [Ev.pollEv] ++ [Ev.sleepEv (computeRetry r.retryAfter now)])) ∧
    (∀ (mw now : ℚ) (rs : List PollResponse) (e : Int) (c : Nat) (t : String) (evs2 : List Ev),
      pollLoop mw now 0 [] rs = PollResult.timedOut e c t evs2 →
      e = pyTrunc ((sleepsOf evs2).sum)) ∧
    pollLoop 2 0 0 [] [rPend, rPend, rPend] =
      PollResult.timedOut 3 200 "pending"
        [Ev.pollEv, Ev.sleepEv 1, Ev.pollEv, Ev.sleepEv 1, Ev.pollEv, Ev.sleepEv 1] := by
  refine ⟨?_, ?_, ?_⟩
  · intro mw now w evs r rest hterm hdone hpos hceil
    exact pollLoop_cons_timeout mw now w evs r rest hterm hdone hpos hceil
  · intro mw now rs e c t evs2 hres
    exact timedOut_elapsed rs mw now 0 [] e c t evs2 (by simp [sleepsOf]) hres
  · have hd : is_done 200 [] = false := is_done_empty 200
    norm_num [pollLoop, computeRetry, parse_retry_after, pyOrFloat, isBackpressure,
      DEFAULT_RETRY_SECONDS, pyTrunc, rPend, hd]

/-- C2 witness: the first conjunct applied at a concrete ceiling of 1/2
second and one pending response with Retry-After 1. -/
theorem C2_witness :
    pollLoop (1 / 2) 0 0 [] [rPend] =
      PollResult.timedOut 1 200 "pending" [Ev.pollEv, Ev.sleepEv 1] := by
  have h := C2_thm.1 (1 / 2) 0 0 [] rPend [] (by decide) (is_done_empty 200)
    (by norm_num [rPend, computeRetry, parse_retry_after, pyOrFloat])
    (by norm_num [rPend, computeRetry, parse_retry_after, pyOrFloat])
  rw [h]
  norm_num [rPend, computeRetry, parse_retry_after, pyOrFloat, pyTrunc]

/-- C3 counterexample: a 429 response whose body reports status DONE does
not lead to another sleep-and-poll iteration; the loop returns that body
as the completed result after a single poll and no sleep, refuting the
claim that a 409/425/429 response always makes the loop continue. -/
theorem C3_counterexample :
    pollLoop MAX_WAIT_SECONDS 0 0 [] [r429done, r429] =
      PollResult.done [("status", Json.str "DONE")] [Ev.pollEv] ∧
    pollsOf (pollEvents (pollLoop MAX_WAIT_SECONDS 0 0 [] [r429done, r429])) = 1 ∧
    sleepsOf (pollEvents (pollLoop MAX_WAIT_SECONDS 0 0 [] [r429done, r429])) = [] := by
  have h := pollLoop_cons_done MAX_WAIT_SECONDS 0 0 [] r429done [r429]
    (by decide) (by decide)
  refine ⟨?_, ?_, ?_⟩ <;> rw [h] <;> simp [pollEvents, pollsOf, sleepsOf, r429done]

/-- C3 (amended): a poll status of 400 and above outside 409/425/429
terminates the loop with the poll error carrying that status and body; a
409/425/429 response never raises the poll error: unless its body signals
completion (in which case that body is returned as done), the loop sleeps
the computed interval and continues with the next iteration, subject to
the global wait ceiling. -/
theorem C3_amended :
    (∀ (mw now w : ℚ) (evs : List Ev) (r : PollResponse) (rest : List PollResponse),
      400 ≤ r.statusCode → isBackpressure r.statusCode = false →
      pollLoop mw now w evs (r :: rest) =
        PollResult.pollError r.statusCode r.text (evs ++ [Ev.pollEv])) ∧
    (∀ (mw now w : ℚ) (evs : List Ev) (r : PollResponse) (rest : List PollResponse),
      isBackpressure r.statusCode = true →
      is_done r.statusCode (r.jsonBody.getD []) = true →
      pollLoop mw now w evs (r :: rest) =
        PollResult.done (r.jsonBody.getD []) (evs ++ [Ev.pollEv])) ∧
    (∀ (mw now w : ℚ) (evs : List Ev) (r : PollResponse) (rest : List PollResponse),
      isBackpressure r.statusCode = true →
      is_done r.statusCode (r.jsonBody.getD []) = false →
      0 ≤ computeRetry r.retryAfter now →
      w + computeRetry r.retryAfter now ≤ mw →
      pollLoop mw now w evs (r :: rest) =
        pollLoop mw (now + computeRetry r.retryAfter now) (w + computeRetry r.retryAfter now)
          (evs ++ [Ev.pollEv] ++ [Ev.sleepEv (computeRetry r.retryAfter now)]) rest) := by
  refine ⟨?_, ?_, ?_⟩
  · intro mw now w evs r rest herr hbp
    exact pollLoop_cons_pollError mw now w evs r rest herr hbp
  · intro mw now w evs r rest hbp hdone
    exact pollLoop_cons_done mw now w evs r rest (by simp [hbp]) hdone
  · intro mw now w evs r rest hbp hdone hpos hok
    exact pollLoop_cons_continue mw now w evs r rest (by simp [hbp]) hdone hpos hok

/-- C3 witness: the terminal-error conjunct applied to a concrete 500 poll
response. -/
theorem C3_witness :
    pollLoop MAX_WAIT_SECONDS 0 0 [] [rErr500] =
      PollResult.pollError 500 "internal error" [Ev.pollEv] := by
  have h := C3_amended.1 MAX_WAIT_SECONDS 0 0 [] rErr500 [] (by decide) (by decide)
  simpa [rErr500] using h

/-- C4 counterexample: for a Retry-After header parsing as the plain value
0, the claim says the wait is that parsed value (0 seconds), but the code
waits DEFAULT_RETRY_SECONDS, because the parse result is combined with a
Python `or` and 0.0 is falsy; likewise for an HTTP-date in the past whose
floored seconds-remaining value is 0. -/
theorem C4_counterexample :
    computeRetry (RetryAfter.seconds 0) 0 ≠ retrySpecClaim (RetryAfter.seconds 0) 0 ∧
    computeRetry (RetryAfter.seconds 0) 0 = DEFAULT_RETRY_SECONDS ∧
    retrySpecClaim (RetryAfter.seconds 0) 0 = 0 ∧
    computeRetry (RetryAfter.httpDate 0) 5 = DEFAULT_RETRY_SECONDS ∧
    retrySpecClaim (RetryAfter.httpDate 0) 5 = 0 := by
  norm_num [computeRetry, retrySpecClaim, parse_retry_after, pyOrFloat,
    DEFAULT_RETRY_SECONDS, max_def]

/-- C4 (amended): the wait interval used before the next poll equals the
claim's description amended in one point: a parsed plain value of zero, or
an HTTP-date whose floored seconds-remaining value is zero, also falls
back to DEFAULT_RETRY_SECONDS (the source combines the parse with a
Python `or`, and 0.0 is falsy); nonzero parsed values and nonzero floored
date values are used as is, and an absent or doubly unparseable header
falls back to the default. -/
theorem C4_amended (h : RetryAfter) (now : ℚ) :
    computeRetry h now = retrySpecAmended h now := by
  cases h <;> simp [computeRetry, retrySpecAmended, parse_retry_after, pyOrFloat]

/-- C5 counterexample: in a run whose poll phase consists of one pending
response then a DONE response, the trace of side effects is poll, sleep,
poll: the very first poll request after submission is not preceded by any
sleep, refuting the claim that every poll request, including the first,
is preceded by a sleep. -/
theorem C5_counterexample :
    everyPollPrecededBySleep (runEvents (run_simulation subOk [rPend, rDoneX] 0)) = false := by
  have hd : is_done 200 [] = false := is_done_empty 200
  have hdone : is_done 200 [("status", Json.str "DONE"), ("alpha", Json.str "X")] = true := by
    decide
  norm_num [run_simulation, subOk, pollLoop, computeRetry, parse_retry_after, pyOrFloat,
    isBackpressure, DEFAULT_RETRY_SECONDS, MAX_WAIT_SECONDS, rPend, rDoneX, hd, hdone,
    runEvents, pollEvents, everyPollPrecededBySleep, everyPollAfterSleep]

/-- C5 (amended): the poll phase's trace always alternates poll, sleep,
poll, sleep, ... starting with a poll: the first poll after submission is
issued with no preceding sleep, and every later poll request is preceded
by exactly one sleep (of the interval the loop computed from the previous
response). -/
theorem C5_amended (mw now w : ℚ) (rs : List PollResponse) :
    altTrace true (pollEvents (pollLoop mw now w [] rs)) = true ∧
    (rs ≠ [] → (pollEvents (pollLoop mw now w [] rs)).head? = some Ev.pollEv) := by
  constructor
  · exact altTrace_pollLoop rs mw now w
  · intro hne
    cases rs with
    | nil => exact absurd rfl hne
    | cons r rest => exact pollLoop_head_poll r rest mw now w

/-- C5 witness: the amended claim at a concrete one-response script. -/
theorem C5_witness :
    altTrace true (pollEvents (pollLoop 2 0 0 [] [rPend])) = true ∧
    (pollEvents (pollLoop 2 0 0 [] [rPend])).head? = some Ev.pollEv :=
  ⟨(C5_amended 2 0 0 [rPend]).1, (C5_amended 2 0 0 [rPend]).2 (by simp)⟩

/-- C6: every submission yields exactly one outcome - a submit error, a
missing-locator error, or the poll phase on the single locator, never a
mix. A submission status of 400 and above raises the submit error and the
poll loop is never entered (no poll event occurs); a success response
whose Location header is absent or empty raises the missing-locator error,
again without entering the poll loop; a success response carrying a
non-empty locator leads to polling exactly that locator. -/
theorem C6_thm (submit : SubmitResponse) (polls : List PollResponse) (now : ℚ) :
    (400 ≤ submit.statusCode →
      run_simulation submit polls now = RunResult.submitError submit.statusCode submit.text ∧
      runEvents (run_simulation submit polls now) = []) ∧
    (submit.statusCode < 400 → submit.location.getD "" = "" →
      run_simulation submit polls now =
        RunResult.missingLocation submit.statusCode submit.text ∧
      runEvents (run_simulation submit polls now) = []) ∧
    (∀ u : String, submit.statusCode < 400 → submit.location = some u → u ≠ "" →
      run_simulation submit polls now =
        RunResult.polled u (pollLoop MAX_WAIT_SECONDS now 0 [] polls)) := by
  refine ⟨?_, ?_, ?_⟩
  · intro hge
    constructor
    · simp [run_simulation, hge]
    · simp [run_simulation, hge, runEvents]
  · intro hlt hloc
    have hn : ¬ 400 ≤ submit.statusCode := not_le.mpr hlt
    constructor
    · simp [run_simulation, hn, hloc]
    · simp [run_simulation, hn, hloc, runEvents]
  · intro u hlt hloc hu
    have hn : ¬ 400 ≤ submit.statusCode := not_le.mpr hlt
    simp [run_simulation, hn, hloc, hu]

/-- C6 witness: the submit-error conjunct at a concrete 500 submission. -/
theorem C6_witness :
    run_simulation sub500 [rPend] 0 = RunResult.submitError 500 "server error" ∧
    runEvents (run_simulation sub500 [rPend] 0) = [] := by
  have h := (C6_thm sub500 [rPend] 0).1 (by decide)
  exact ⟨h.1, h.2⟩

/-- C7: with no search term, a first page reporting count 120, page size
50, all pages succeeding and all requested pages non-empty, get_datafields
issues exactly three page requests, at offsets 0, 50 and 100, and returns
the three pages' rows concatenated in the order received. -/
theorem C7_thm (server : Nat → Page) (xs0 xs1 xs2 : List Json)
    (h0s : (server 0).statusCode < 400)
    (h0c : (server 0).body.lookup "count" = some (Json.num 120))
    (h0r : (server 0).body.lookup "results" = some (Json.arr xs0))
    (_h0n : xs0.isEmpty = false)
    (h1s : (server 50).statusCode < 400)
    (h1r : (server 50).body.lookup "results" = some (Json.arr xs1))
    (h1n : xs1.isEmpty = false)
    (h2s : (server 100).statusCode < 400)
    (h2r : (server 100).body.lookup "results" = some (Json.arr xs2))
    (h2n : xs2.isEmpty = false) :
    get_datafields server REQUIRED_SCOPE false 50 =
      FetchResult.ok ((xs0 ++ xs1) ++ xs2) [0, 50, 100] false := by
  have hmiss : REQUIRED_SCOPE.filter (fun k => !(REQUIRED_SCOPE.contains k)) = [] := by decide
  have hrange : rangeStep 50 120 50 = [50, 100] := by decide
  have hn0 : ¬ 400 ≤ (server 0).statusCode := not_le.mpr h0s
  have hn1 : ¬ 400 ≤ (server 50).statusCode := not_le.mpr h1s
  have hn2 : ¬ 400 ≤ (server 100).statusCode := not_le.mpr h2s
  simp [get_datafields, fetchPages, hmiss, hn0, hn1, hn2, h0c, h0r, h1r, h2r, jsonToList,
    truthy, h1n, h2n, pyIntJ, hrange]

/-- C7 witness: the pagination claim at a concrete three-page server. -/
theorem C7_witness :
    get_datafields srv7 REQUIRED_SCOPE false 50 =
      FetchResult.ok [Json.num 1, Json.num 2, Json.num 3] [0, 50, 100] false := by
  have h := C7_thm srv7 [Json.num 1] [Json.num 2] [Json.num 3]
    (by norm_num [srv7]) rfl rfl rfl
    (by norm_num [srv7]) rfl rfl
    (by norm_num [srv7]) rfl rfl
  simpa using h

/-- C8: a first catalog page failing with status 400 or above makes
get_datafields fail with the fetch error carrying that status and body,
whereas a later page failing with 400 or above stops pagination right
there with the warning flag set, returning the rows accumulated so far
and issuing no further page requests. -/
theorem C8_thm :
    (∀ (server : Nat → Page) (scopeKeys : List String) (search : Bool) (pl : Nat),
      (REQUIRED_SCOPE.filter (fun k => !(scopeKeys.contains k))).isEmpty = true →
      400 ≤ (server 0).statusCode →
      get_datafields server scopeKeys search pl =
        FetchResult.fetchError (server 0).statusCode (server 0).text) ∧
    (∀ (server : Nat → Page) (off : Nat) (rest : List Nat) (acc : List Json)
      (reqd : List Nat),
      400 ≤ (server off).statusCode →
      fetchPages server (off :: rest) acc reqd = (acc, reqd ++ [off], true)) := by
  constructor
  · intro server scopeKeys search pl hscope hfail
    simp only [get_datafields, hscope, Bool.not_true]
    simp [hfail]
  · intro server off rest acc reqd hfail
    simp [fetchPages, hfail]

/-- C8 witness: the first-page conjunct at a concrete failing server. -/
theorem C8_witness :
    get_datafields srvFail REQUIRED_SCOPE false 50 =
      FetchResult.fetchError 503 "unavailable" := by
  have h := C8_thm.1 srvFail REQUIRED_SCOPE false 50 (by decide) (by norm_num [srvFail])
  simpa [srvFail] using h

/-- C9: both accepted credential-file shapes normalize to the same
username/password pair (shape invariance), and a file of any other shape
makes sign_in fail with the configuration error regardless of the auth
response, i.e. before any network request. -/
theorem C9_thm :
    (∀ u p : String,
      extract_credentials (Json.arr [Json.str u, Json.str p]) = CredResult.ok u p ∧
      extract_credentials (Json.obj [("username", Json.str u), ("password", Json.str p)]) =
        CredResult.ok u p) ∧
    (∀ (data : Json) (resp : AuthResponse),
      acceptedShape data = false → sign_in data resp = SignInResult.configError) := by
  constructor
  · intro u p
    exact ⟨rfl, rfl⟩
  · intro data resp hbad
    have hext : extract_credentials data = CredResult.badFormat := by
      cases data with
      | null => rfl
      | bool b => rfl
      | num n => rfl
      | str s => rfl
      | arr l =>
        rcases l with _ | ⟨a, _ | ⟨b, _ | ⟨c, t⟩⟩⟩
        · rfl
        · rfl
        · simp [acceptedShape] at hbad
        · rfl
      | obj kvs =>
        cases hu : kvs.lookup "username" with
        | none => simp [extract_credentials, hu]
        | some u =>
          cases hp : kvs.lookup "password" with
          | none => simp [extract_credentials, hu, hp]
          | some p => simp [acceptedShape, hu, hp] at hbad
    simp [sign_in, hext]

/-- C9 witness: shape invariance at a concrete pair, and the
configuration error at a concrete non-credential JSON value. -/
theorem C9_witness :
    extract_credentials (Json.arr [Json.str "alice", Json.str "pw1"]) =
      CredResult.ok "alice" "pw1" ∧
    sign_in (Json.num 7) authOk = SignInResult.configError :=
  ⟨(C9_thm.1 "alice" "pw1").1, C9_thm.2 (Json.num 7) authOk rfl⟩

/-- C10: a poll response whose body is not parseable as JSON does not fail
the run because of the parse: an empty body dictionary is never classified
as completion whatever the status code; the loop behaves exactly as if the
body were an explicit empty mapping; and when the status code is not a
terminal poll error (and the ensuing sleep keeps the accumulated wait
within the ceiling), the loop proceeds to another sleep-and-poll
iteration. -/
theorem C10_thm :
    (∀ code : Nat, is_done code [] = false) ∧
    (∀ (mw now w : ℚ) (evs : List Ev) (r : PollResponse) (rest : List PollResponse),
      r.jsonBody = none →
      pollLoop mw now w evs (r :: rest) =
        pollLoop mw now w evs
          ({ statusCode := r.statusCode, retryAfter := r.retryAfter, jsonBody := some [],
             text := r.text } :: rest)) ∧
    (∀ (mw now w : ℚ) (evs : List Ev) (r : PollResponse) (rest : List PollResponse),
      r.jsonBody = none →
      ¬(400 ≤ r.statusCode ∧ isBackpressure r.statusCode = false) →
      0 ≤ computeRetry r.retryAfter now →
      w + computeRetry r.retryAfter now ≤ mw →
      pollLoop mw now w evs (r :: rest) =
        pollLoop mw (now + computeRetry r.retryAfter now) (w + computeRetry r.retryAfter now)
          (evs ++ [Ev.pollEv] ++ [Ev.sleepEv (computeRetry r.retryAfter now)]) rest) := by
  refine ⟨is_done_empty, ?_, ?_⟩
  · intro mw now w evs r rest hnone
    simp [pollLoop, hnone]
  · intro mw now w evs r rest hnone hterm hpos hok
    have hdone : is_done r.statusCode (r.jsonBody.getD []) = false := by
      rw [hnone]
      exact is_done_empty r.statusCode
    exact pollLoop_cons_continue mw now w evs r rest hterm hdone hpos hok

/-- C10 witness: a 429 response with an unparseable body proceeds to the
next sleep-and-poll iteration. -/
theorem C10_witness :
    pollLoop MAX_WAIT_SECONDS 0 0 [] [rNoJson, rDoneX] =
      pollLoop MAX_WAIT_SECONDS (0 + computeRetry rNoJson.retryAfter 0)
        (0 + computeRetry rNoJson.retryAfter 0)
        ([] ++ [Ev.pollEv] ++ [Ev.sleepEv (computeRetry rNoJson.retryAfter 0)]) [rDoneX] :=
  C10_thm.2.2 MAX_WAIT_SECONDS 0 0 [] rNoJson [rDoneX] rfl (by decide)
    (by norm_num [rNoJson, computeRetry, parse_retry_after, pyOrFloat])
    (by norm_num [rNoJson, computeRetry, parse_retry_after, pyOrFloat, MAX_WAIT_SECONDS])
